import Mathlib

/-!
Verification of the configuration schema compiler (`compileConfigSchemas`)
of the `@backstage/config-loader` package. The compiler's implementation
file (`compile.ts`) is not part of the source snapshot; only its test
suite is. The definitions below are therefore modelled from the spec
(sections 3, 4.1-4.4 and 7), with the observable behavior pinned by the
test suite (`compileConfigSchemas.test.ts`) taken as authoritative where
the two disagree: the tests show that (a) merging `backend` with `secret`
visibility succeeds and resolves to `secret` (only the `frontend`/`secret`
pair conflicts), (b) schema-path map keys carry a leading slash
(`/properties/a`), (c) a successful validation returns no `errors` field
at all rather than an empty list, and (d) the number `3` is not coercible
to boolean (only `0` and `1` are).

Numbers are modelled as integers: every numeric value appearing in the
claims and in the tests that exercise coercion is integral, and the
string-to-number parser recognises optionally-signed decimal numerals.
-/

/-- Modelled from the spec: the three-level visibility classification
(`frontend`, `backend`, `secret`) attached to configuration fields. -/
inductive Visibility where
  | frontend
  | backend
  | secret
deriving DecidableEq, Repr

/-- Modelled from the spec: the three coercible scalar kinds of the
schema dialect. -/
inductive ScalarKind where
  | string
  | number
  | boolean
deriving DecidableEq, Repr

/-- Modelled from the spec: one segment of a structural path into a schema
tree: either a named property or the collapsed array-items position. -/
inductive PathSeg where
  | prop (name : String)
  | items
deriving DecidableEq, Repr

mutual
/-- Modelled from the spec: a node of the declarative schema tree
(`object` with properties, `array` with `items`, or a scalar), each node
optionally carrying a `visibility` and a `deprecated` reason. -/
inductive SchemaNode where
  | obj (props : SProps) (vis : Option Visibility) (dep : Option String)
  | arr (items : SchemaNode) (vis : Option Visibility) (dep : Option String)
  | scalar (kind : ScalarKind) (vis : Option Visibility) (dep : Option String)
deriving DecidableEq, Repr

/-- Modelled from the spec: the property list of an `object` schema node
(a name-to-subschema mapping in declaration order). -/
inductive SProps where
  | nil
  | cons (name : String) (child : SchemaNode) (rest : SProps)
deriving DecidableEq, Repr
end

/-- The declared visibility of a schema node. -/
def SchemaNode.vis : SchemaNode → Option Visibility
  | .obj _ v _ => v
  | .arr _ v _ => v
  | .scalar _ v _ => v

/-- The declared deprecation reason of a schema node. -/
def SchemaNode.dep : SchemaNode → Option String
  | .obj _ _ d => d
  | .arr _ _ d => d
  | .scalar _ _ d => d

/-- First subschema declared under the given property name, if any. -/
def lookupProp (k : String) : SProps → Option SchemaNode
  | .nil => none
  | .cons n c rest => if n = k then some c else lookupProp k rest

/-- Removes every property with the given name. -/
def removeProp (k : String) : SProps → SProps
  | .nil => .nil
  | .cons n c rest =>
      if n = k then removeProp k rest else .cons n c (removeProp k rest)

/-- Concatenation of two property lists. -/
def appendProps : SProps → SProps → SProps
  | .nil, q => q
  | .cons n c rest, q => .cons n c (appendProps rest q)

/-- Decides that no property name of the first list occurs in the second. -/
def propsDisjoint : SProps → SProps → Bool
  | .nil, _ => true
  | .cons n _ rest, q => (lookupProp n q).isNone && propsDisjoint rest q

/-- String form of a visibility value, as it appears in schemas and
error messages. -/
def visName : Visibility → String
  | .frontend => "frontend"
  | .backend => "backend"
  | .secret => "secret"

/-- The string segments a structural path segment contributes to the
rendered schema path (`properties/<name>` or `items`). -/
def segStrings : PathSeg → List String
  | .prop n => ["properties", n]
  | .items => ["items"]

/-- Renders a structural path as slash-joined segments without a leading
slash, ending in the `visibility` keyword, as used in the conflict error. -/
def conflictPathStr (path : List PathSeg) : String :=
  String.intercalate "/" ((path.map segStrings).flatten ++ ["visibility"])

/-- Modelled from the spec: the compile-time conflict error message. The
test suite pins its exact form: the two named values are always the
literals `frontend` and `secret`, the only conflicting pair. -/
def conflictMsg (path : List PathSeg) : String :=
  "Config schema visibility is both 'frontend' and 'secret' for " ++
    conflictPathStr path

/-- Modelled from the spec: resolution of two visibility declarations at
the same structural path. Per the test suite, only the `frontend`/`secret`
pair is a conflict; any pair involving `backend` resolves to the more
restrictive declared value (`secret` over anything but `frontend`,
`frontend` over `backend`). The error value is the structural path of the
conflict; `compileConfigSchemas` renders it with `conflictMsg`. -/
def resolveVis (path : List PathSeg) :
    Visibility → Visibility → Except (List PathSeg) Visibility
  | .frontend, .secret => .error path
  | .secret, .frontend => .error path
  | .secret, _ => .ok .secret
  | _, .secret => .ok .secret
  | .frontend, _ => .ok .frontend
  | _, .frontend => .ok .frontend
  | .backend, .backend => .ok .backend

/-- Merge of the optional visibility declarations of two nodes at the
same structural path: an undeclared side defers to the other. -/
def mergeVis (path : List PathSeg) :
    Option Visibility → Option Visibility → Except (List PathSeg) (Option Visibility)
  | some a, some b => (resolveVis path a b).map some
  | some a, none => .ok (some a)
  | none, o => .ok o

/-- Merge of deprecation reasons: last fragment wins, per the spec's
stated dont-care policy. -/
def mergeDep : Option String → Option String → Option String
  | _, some b => some b
  | a, none => a

mutual
/-- Modelled from the spec: deep union of two schema trees at the given
structural path. Properties present in only one fragment are carried
through unchanged; shared properties are merged recursively; a
`frontend`/`secret` visibility clash aborts with the conflicting path.
When the node kinds differ the later fragment's node is kept (the spec
leaves type widening implementation-defined), after the visibility
declarations of both have been checked for conflict. -/
def mergeNode (path : List PathSeg) : SchemaNode → SchemaNode → Except (List PathSeg) SchemaNode
  | .obj p1 v1 d1, .obj p2 v2 d2 =>
      match mergeVis path v1 v2 with
      | .error q => .error q
      | .ok v =>
        match mergeProps path p1 p2 with
        | .error q => .error q
        | .ok p => .ok (.obj p v (mergeDep d1 d2))
  | .arr i1 v1 d1, .arr i2 v2 d2 =>
      match mergeVis path v1 v2 with
      | .error q => .error q
      | .ok v =>
        match mergeNode (path ++ [.items]) i1 i2 with
        | .error q => .error q
        | .ok i => .ok (.arr i v (mergeDep d1 d2))
  | .scalar _ v1 d1, .scalar k2 v2 d2 =>
      match mergeVis path v1 v2 with
      | .error q => .error q
      | .ok v => .ok (.scalar k2 v (mergeDep d1 d2))
  | s1, s2 =>
      match mergeVis path s1.vis s2.vis with
      | .error q => .error q
      | .ok _ => .ok s2

/-- Merge of two property lists: properties of the first list are merged
with their namesakes of the second (which are consumed), the remaining
properties of the second list are appended unchanged. -/
def mergeProps (path : List PathSeg) : SProps → SProps → Except (List PathSeg) SProps
  | .nil, q => .ok q
  | .cons k c rest, q =>
      match lookupProp k q with
      | some c2 =>
        match mergeNode (path ++ [.prop k]) c c2 with
        | .error e => .error e
        | .ok m =>
          match mergeProps path rest (removeProp k q) with
          | .error e => .error e
          | .ok r => .ok (.cons k m r)
      | none =>
        match mergeProps path rest q with
        | .error e => .error e
        | .ok r => .ok (.cons k c r)
end

/-- Modelled from the spec: one package's schema contribution, a
provenance path plus a schema tree. -/
structure SchemaFragment where
  path : String
  value : SchemaNode

/-- Folds the remaining fragments into an accumulated merged schema. -/
def mergeInto (acc : SchemaNode) : List SchemaFragment → Except (List PathSeg) SchemaNode
  | [] => .ok acc
  | f :: rest =>
      match mergeNode [] acc f.value with
      | .error q => .error q
      | .ok m => mergeInto m rest

/-- Modelled from the spec: merge of all fragments into a single schema
tree (an empty fragment list yields an empty object schema). -/
def mergeAll : List SchemaFragment → Except (List PathSeg) SchemaNode
  | [] => .ok (.obj .nil none none)
  | f :: rest => mergeInto f.value rest

/-- The visibility declared at a structural path of a schema tree:
follows `properties/<name>` segments through objects and `items` segments
through arrays, and reads the node's own declaration at the end. -/
def declaredVisAt : SchemaNode → List PathSeg → Option Visibility
  | s, [] => s.vis
  | .obj props _ _, .prop k :: rest =>
      match lookupProp k props with
      | some c => declaredVisAt c rest
      | none => none
  | .arr items _ _, .items :: rest => declaredVisAt items rest
  | _, _ => none

/-- The conflicting pair of visibility declarations: `frontend` against
`secret`, in either order, per the test suite's observed behavior. -/
def isConflict (v1 v2 : Visibility) : Prop :=
  (v1 = .frontend ∧ v2 = .secret) ∨ (v1 = .secret ∧ v2 = .frontend)

instance (v1 v2 : Visibility) : Decidable (isConflict v1 v2) := by
  unfold isConflict; infer_instance

mutual
/-- Modelled from the spec: a configuration data value. Objects keep
their fields in order (mutation preserves field order); numbers are
modelled as integers, which covers every value the claims mention. -/
inductive JValue where
  | str (s : String)
  | num (n : Int)
  | bool (b : Bool)
  | obj (fields : JFields)
  | arr (elems : JElems)
deriving DecidableEq, Repr

/-- Field list of an object value, in insertion order. -/
inductive JFields where
  | nil
  | cons (name : String) (v : JValue) (rest : JFields)
deriving DecidableEq, Repr

/-- Element list of an array value. -/
inductive JElems where
  | nil
  | cons (v : JValue) (rest : JElems)
deriving DecidableEq, Repr
end

/-- Removes every field with the given name from an object's field list. -/
def removeField (k : String) : JFields → JFields
  | .nil => .nil
  | .cons n v rest =>
      if n = k then removeField k rest else .cons n v (removeField k rest)

/-- Numeric value of a decimal digit character, if it is one. -/
def digitVal (c : Char) : Option Nat :=
  if 48 ≤ c.toNat ∧ c.toNat ≤ 57 then some (c.toNat - 48) else none

/-- Accumulating decimal parser over a character list: fails on the
first non-digit. -/
def parseDigits (acc : Nat) : List Char → Option Nat
  | [] => some acc
  | c :: cs =>
      match digitVal c with
      | some d => parseDigits (acc * 10 + d) cs
      | none => none

/-- Modelled from the spec: string-to-number parsing for coercion. A
valid numeral is an optionally minus-signed nonempty digit sequence;
anything else is not coercible. -/
def parseNumOpt (s : String) : Option Int :=
  match s.data with
  | [] => none
  | '-' :: cs =>
      if cs.isEmpty then none
      else (parseDigits 0 cs).map (fun n => -(n : Int))
  | cs => (parseDigits 0 cs).map (fun n => (n : Int))

/-- Whether a value already has the schema-declared scalar kind. -/
def matchesKind : ScalarKind → JValue → Bool
  | .string, .str _ => true
  | .number, .num _ => true
  | .boolean, .bool _ => true
  | _, _ => false

/-- The name of the expected type, as it appears in error records. -/
def kindName : ScalarKind → String
  | .string => "string"
  | .number => "number"
  | .boolean => "boolean"

/-- Modelled from the spec: the scalar coercion table (section 4.3).
Strings parse to numbers when they are valid numerals; the literal
strings recognised as booleans are true, 1, false and 0; numbers
stringify; booleans map to 1/0 and true/false. Numeric sources for a
boolean target are restricted to the literals 0 and 1, the narrower
table the spec directs in section 9 and the test suite confirms (the
number 3 yields a type error against a boolean field). -/
def coerce : JValue → ScalarKind → Option JValue
  | .num n, .string => some (.str (toString n))
  | .bool b, .string => some (.str (if b then "true" else "false"))
  | .str s, .number => (parseNumOpt s).map JValue.num
  | .bool b, .number => some (.num (if b then 1 else 0))
  | .str s, .boolean =>
      if s = "true" ∨ s = "1" then some (.bool true)
      else if s = "false" ∨ s = "0" then some (.bool false)
      else none
  | .num n, .boolean =>
      if n = 0 then some (.bool false)
      else if n = 1 then some (.bool true)
      else none
  | _, _ => none

/-- Modelled from the spec: one structural validation error record, in
the shape the underlying structural validator reports (`keyword`,
`instancePath`, `schemaPath`, `message`, and the expected type as its
parameter). -/
structure ValidationError where
  keyword : String
  instancePath : String
  schemaPath : String
  message : String
  params : String
deriving DecidableEq, Repr

/-- A `type` error at the given instance and schema paths, expecting the
named type. -/
def typeErr (spath ipath tname : String) : ValidationError :=
  { keyword := "type"
    instancePath := ipath
    schemaPath := spath ++ "/type"
    message := "must be " ++ tname
    params := tname }

mutual
/-- Modelled from the spec: structural validation of a value against a
schema node, with the coercion policy active on scalar leaves. Returns
the (possibly coerced) value - modelling the in-place mutation of the
caller's data - together with the errors discovered, in order. A scalar
mismatch that coercion cannot repair yields one `type` error and leaves
the value unchanged; object/array mismatches are never coerced. -/
def validateValue (spath ipath : String) : SchemaNode → JValue → JValue × List ValidationError
  | .scalar kind _ _, v =>
      if matchesKind kind v then (v, [])
      else
        match coerce v kind with
        | some v2 => (v2, [])
        | none => (v, [typeErr spath ipath (kindName kind)])
  | .obj props _ _, .obj fields =>
      match validateFields spath ipath props fields with
      | (fs, errs) => (.obj fs, errs)
  | .obj _ _ _, v => (v, [typeErr spath ipath "object"])
  | .arr items _ _, .arr elems =>
      match validateElems spath ipath items 0 elems with
      | (es, errs) => (.arr es, errs)
  | .arr _ _ _, v => (v, [typeErr spath ipath "array"])

/-- Validation of an object's fields: each field declared in the schema
is validated against its subschema; fields with no declaration are
carried through untouched (additional properties are ignored). -/
def validateFields (spath ipath : String) (props : SProps) : JFields → JFields × List ValidationError
  | .nil => (.nil, [])
  | .cons k v rest =>
      match lookupProp k props with
      | some child =>
        match validateValue (spath ++ "/properties/" ++ k) (ipath ++ "/" ++ k) child v with
        | (v2, e1) =>
          match validateFields spath ipath props rest with
          | (r2, e2) => (.cons k v2 r2, e1 ++ e2)
      | none =>
        match validateFields spath ipath props rest with
        | (r2, e2) => (.cons k v r2, e2)

/-- Validation of an array's elements against the `items` subschema, one
data path per index. -/
def validateElems (spath ipath : String) (items : SchemaNode) (idx : Nat) : JElems → JElems × List ValidationError
  | .nil => (.nil, [])
  | .cons v rest =>
      match validateValue (spath ++ "/items") (ipath ++ "/" ++ toString idx) items v with
      | (v2, e1) =>
        match validateElems spath ipath items (idx + 1) rest with
        | (r2, e2) => (.cons v2 r2, e1 ++ e2)
end

/-- The visibility entry a schema node contributes for a path, if any:
per the test suite, `backend` (the default) is never recorded. -/
def visEntry (path : String) : Option Visibility → List (String × Visibility)
  | some w => if w = .backend then [] else [(path, w)]
  | none => []

/-- The deprecation entry a schema node contributes for a path, if any. -/
def depEntry (path : String) : Option String → List (String × String)
  | some r => [(path, r)]
  | none => []

mutual
/-- Modelled from the spec: the walk of the merged schema aligned
against a validated instance, producing the data-path visibility and
deprecation entries, one per concrete occurrence present in the data
(array elements fan out to one entry per index). -/
def collectMaps (path : String) : SchemaNode → JValue → List (String × Visibility) × List (String × String)
  | .obj props v d, .obj fields =>
      match collectMapsFields path props fields with
      | (vs, ds) => (visEntry path v ++ vs, depEntry path d ++ ds)
  | .arr items v d, .arr elems =>
      match collectMapsElems path items 0 elems with
      | (vs, ds) => (visEntry path v ++ vs, depEntry path d ++ ds)
  | s, _ => (visEntry path s.vis, depEntry path s.dep)

/-- Data-path entries of an object's fields: only fields declared in the
schema contribute. -/
def collectMapsFields (path : String) (props : SProps) : JFields → List (String × Visibility) × List (String × String)
  | .nil => ([], [])
  | .cons k v rest =>
      match lookupProp k props with
      | some child =>
        match collectMaps (path ++ "/" ++ k) child v with
        | (vs1, ds1) =>
          match collectMapsFields path props rest with
          | (vs2, ds2) => (vs1 ++ vs2, ds1 ++ ds2)
      | none => collectMapsFields path props rest

/-- Data-path entries of an array's elements, one per index. -/
def collectMapsElems (path : String) (items : SchemaNode) (idx : Nat) : JElems → List (String × Visibility) × List (String × String)
  | .nil => ([], [])
  | .cons v rest =>
      match collectMaps (path ++ "/" ++ toString idx) items v with
      | (vs1, ds1) =>
        match collectMapsElems path items (idx + 1) rest with
        | (vs2, ds2) => (vs1 ++ vs2, ds1 ++ ds2)
end

mutual
/-- Modelled from the spec: the schema-path visibility map, computed
once from the merged schema. Keys are slash-led paths into the schema
tree (the test suite pins `/properties/a`, `/properties/d/items`); array
items collapse onto a single entry; `backend` is never recorded. -/
def schemaVisOf (path : String) : SchemaNode → List (String × Visibility)
  | .obj props v _ => visEntry path v ++ schemaVisOfProps path props
  | .arr items v _ => visEntry path v ++ schemaVisOf (path ++ "/items") items
  | .scalar _ v _ => visEntry path v

/-- Schema-path visibility entries of an object's properties. -/
def schemaVisOfProps (path : String) : SProps → List (String × Visibility)
  | .nil => []
  | .cons k c rest =>
      schemaVisOf (path ++ "/properties/" ++ k) c ++ schemaVisOfProps path rest
end

/-- Modelled from the spec: the compiled validator, closed over the
merged schema and the schema-path visibility map (which is computed once
and is stable across validation calls). -/
structure Compiled where
  merged : SchemaNode
  schemaVis : List (String × Visibility)
deriving DecidableEq, Repr

/-- Modelled from the spec: `compileConfigSchemas` merges all fragments
and closes the validator over the merged schema; a visibility conflict
aborts compilation with the conflict error message. -/
def compileConfigSchemas (fragments : List SchemaFragment) : Except String Compiled :=
  match mergeAll fragments with
  | .error q => .error (conflictMsg q)
  | .ok m => .ok { merged := m, schemaVis := schemaVisOf "" m }

/-- Modelled from the spec: one validation request, a mutable data
object plus an opaque provenance context. -/
structure ValidationRequest where
  data : JValue
  context : String

/-- Modelled from the spec: the result of one validation call. Per the
test suite the `errors` field is optional and absent when every request
validated (a success result carries no `errors` key); the maps are path
keyed in insertion order, as a JavaScript `Map` iterates. -/
structure ValidationResult where
  errors : Option (List ValidationError)
  visibilityByDataPath : List (String × Visibility)
  visibilityBySchemaPath : List (String × Visibility)
  deprecationByDataPath : List (String × String)
deriving DecidableEq, Repr

/-- JavaScript `Map.set`: overwrites the value in place if the key is
present, appends otherwise. -/
def setKey (m : List (String × α)) (k : String) (v : α) : List (String × α) :=
  if m.any (fun p => p.1 = k) then
    m.map (fun p => if p.1 = k then (k, v) else p)
  else m ++ [(k, v)]

/-- Folds a list of entries into a map with `setKey` (later entries win
on key collision). -/
def addEntries (m : List (String × α)) : List (String × α) → List (String × α)
  | [] => m
  | (k, v) :: rest => addEntries (setKey m k v) rest

/-- JavaScript `Map.get` on the insertion-ordered entry list. -/
def lookupKey (m : List (String × α)) (k : String) : Option α :=
  match m with
  | [] => none
  | (n, v) :: rest => if n = k then some v else lookupKey rest k

/-- Validation of one request against the merged schema: the coerced
data (the in-place mutation of the caller's object) and the request's
errors in discovery order. -/
def validateOne (m : SchemaNode) (r : ValidationRequest) : JValue × List ValidationError :=
  validateValue "#" "" m r.data

/-- Errors of a batch: each request's errors concatenated in batch
order. -/
def batchErrors (m : SchemaNode) : List ValidationRequest → List ValidationError
  | [] => []
  | r :: rest => (validateOne m r).2 ++ batchErrors m rest

/-- Data-path visibility entries of a batch, in request order. -/
def batchVisEntries (m : SchemaNode) : List ValidationRequest → List (String × Visibility)
  | [] => []
  | r :: rest => (collectMaps "" m (validateOne m r).1).1 ++ batchVisEntries m rest

/-- Data-path deprecation entries of a batch, in request order. -/
def batchDepEntries (m : SchemaNode) : List ValidationRequest → List (String × String)
  | [] => []
  | r :: rest => (collectMaps "" m (validateOne m r).1).2 ++ batchDepEntries m rest

/-- Wraps an error list the way the validation result reports it: absent
when empty, present otherwise. -/
def errsOpt : List ValidationError → Option (List ValidationError)
  | [] => none
  | es => some es

/-- Modelled from the spec: the validation function returned by
`compileConfigSchemas`. Structural mismatches are accumulated, never
thrown (the function is total); errors concatenate in batch order; the
data-path maps accumulate across the batch with last-wins key
collisions; the schema-path map is the compile-time one. Per the test
suite, `errors` is absent when the batch produced none. -/
def validateBatch (c : Compiled) (batch : List ValidationRequest) : ValidationResult :=
  { errors := errsOpt (batchErrors c.merged batch)
    visibilityByDataPath := addEntries [] (batchVisEntries c.merged batch)
    visibilityBySchemaPath := c.schemaVis
    deprecationByDataPath := addEntries [] (batchDepEntries c.merged batch) }

/-- Per-request error lists of a batch, concatenated in batch order with
a join: the reference form the batch runner is compared against. -/
def batchJoined (m : SchemaNode) (batch : List ValidationRequest) : List ValidationError :=
  (batch.map (fun r => (validateOne m r).2)).flatten

/-- The errors a merged pair of disjoint fragments is expected to
produce: each data field is validated by the fragment that declares it
(first fragment first), undeclared fields produce nothing. Mirrors the
per-property decomposition the merge-correctness claim asserts. -/
def perFragmentErrors (sp ip : String) (p1 p2 : SProps) : JFields → List ValidationError
  | .nil => []
  | .cons k v rest =>
      (match lookupProp k p1 with
       | some c => (validateValue (sp ++ "/properties/" ++ k) (ip ++ "/" ++ k) c v).2
       | none =>
         match lookupProp k p2 with
         | some c => (validateValue (sp ++ "/properties/" ++ k) (ip ++ "/" ++ k) c v).2
         | none => []) ++ perFragmentErrors sp ip p1 p2 rest

/-- The fragment declaring `a` as a string, from the coercion tests. -/
def fragA : SchemaFragment :=
  ⟨"a", .obj (.cons "a" (.scalar .string none none) .nil) none none⟩

/-- The fragment declaring `b` as a number, from the coercion tests. -/
def fragB : SchemaFragment :=
  ⟨"b", .obj (.cons "b" (.scalar .number none none) .nil) none none⟩

/-- The fragment declaring `c` as a boolean, from the coercion tests. -/
def fragC : SchemaFragment :=
  ⟨"c", .obj (.cons "c" (.scalar .boolean none none) .nil) none none⟩

/-- The three-fragment schema of the coercion tests. -/
def fragsABC : List SchemaFragment := [fragA, fragB, fragC]

/-- The merged schema of the three coercion-test fragments. -/
def mergedABC : SchemaNode :=
  .obj (.cons "a" (.scalar .string none none)
    (.cons "b" (.scalar .number none none)
      (.cons "c" (.scalar .boolean none none) .nil))) none none

/-- The compiled validator of the three coercion-test fragments. -/
def compiledABC : Compiled := ⟨mergedABC, []⟩

/-- A one-field object data value. -/
def oneField (k : String) (v : JValue) : JValue := .obj (.cons k v .nil)

/-- The first visibility-discovery fragment of the test suite. -/
def fragVis1 : SchemaFragment :=
  ⟨"a1", .obj
    (.cons "a" (.scalar .string (some .frontend) none)
      (.cons "b" (.scalar .string (some .backend) none)
        (.cons "c" (.scalar .string none none)
          (.cons "d" (.arr (.scalar .string (some .frontend) none) (some .secret) none)
            .nil)))) none none⟩

/-- The second visibility-discovery fragment of the test suite. -/
def fragVis2 : SchemaFragment :=
  ⟨"a2", .obj
    (.cons "a" (.scalar .string none none)
      (.cons "b" (.scalar .string (some .secret) none)
        (.cons "c" (.scalar .string (some .backend) none)
          (.cons "d" (.arr (.scalar .string none none) (some .secret) none)
            .nil)))) none none⟩

/-- The instance validated in the visibility-discovery test. -/
def dataVis : JValue :=
  .obj (.cons "a" (.str "a")
    (.cons "b" (.str "b")
      (.cons "c" (.str "c")
        (.cons "d" (.arr (.cons (.str "d") .nil)) .nil))))

/-- The merged schema of the two visibility-discovery fragments:
`a` resolves to `frontend`, `b` (declared `backend` and `secret`) to
`secret`, `c` to `backend`, `d` keeps `secret` with `frontend` items. -/
def mergedVis : SchemaNode :=
  .obj
    (.cons "a" (.scalar .string (some .frontend) none)
      (.cons "b" (.scalar .string (some .secret) none)
        (.cons "c" (.scalar .string (some .backend) none)
          (.cons "d" (.arr (.scalar .string (some .frontend) none) (some .secret) none)
            .nil)))) none none

/-- The schema-path visibility map of the visibility-discovery test. -/
def schemaVisMapVis : List (String × Visibility) :=
  [("/properties/a", .frontend), ("/properties/b", .secret),
   ("/properties/d", .secret), ("/properties/d/items", .frontend)]

/-- The data-path visibility map of the visibility-discovery test. -/
def dataVisMapVis : List (String × Visibility) :=
  [("/a", .frontend), ("/b", .secret), ("/d", .secret), ("/d/0", .frontend)]

/-- First fragment of the visibility-conflict test: `a` is `frontend`. -/
def fragConf1 : SchemaFragment :=
  ⟨"a1", .obj (.cons "a" (.scalar .string (some .frontend) none) .nil) none none⟩

/-- Second fragment of the visibility-conflict test: `a` is `secret`. -/
def fragConf2 : SchemaFragment :=
  ⟨"a2", .obj (.cons "a" (.scalar .string (some .secret) none) .nil) none none⟩

/-- The property list of the deprecation-discovery fragment: `a` and `b`
carry deprecation reasons, `c` none; `d` is undeclared. -/
def depProps : SProps :=
  .cons "a" (.scalar .string none (some "deprecation reason for a"))
    (.cons "b" (.scalar .string none (some "deprecation reason for b"))
      (.cons "c" (.scalar .string none none) .nil))

/-- The field list validated in the deprecation-discovery test: three
declared properties plus the undeclared `d`. -/
def fieldsDep : JFields :=
  .cons "a" (.str "a")
    (.cons "b" (.str "b")
      (.cons "c" (.str "c")
        (.cons "d" (.arr (.cons (.str "d") .nil)) .nil)))

/-- The conflicting pair resolves to the conflict error carrying the
path of the clash. -/
theorem resolveVis_conflict (path : List PathSeg) (v1 v2 : Visibility)
    (h : isConflict v1 v2) : resolveVis path v1 v2 = .error path := by
  rcases h with ⟨h1, h2⟩ | ⟨h1, h2⟩ <;> subst h1 <;> subst h2 <;> rfl

/-- Two declared visibilities that form the conflicting pair make the
visibility merge fail with the clash path. -/
theorem mergeVis_conflict (path : List PathSeg) (v1 v2 : Visibility)
    (h : isConflict v1 v2) :
    mergeVis path (some v1) (some v2) = .error path := by
  simp [mergeVis, Except.map, resolveVis_conflict path v1 v2 h]

/-- Removing properties of one name leaves lookups of another name
unchanged. -/
theorem lookupProp_removeProp_ne (k n : String) (hne : k ≠ n) :
    ∀ q : SProps, lookupProp k (removeProp n q) = lookupProp k q
  | .nil => rfl
  | .cons m c rest => by
      by_cases hmn : m = n
      · subst hmn
        have hmk : ¬(m = k) := fun h => hne (h ▸ rfl)
        simp [removeProp, lookupProp, hmk, lookupProp_removeProp_ne k m hne rest]
      · by_cases hmk : m = k
        · subst hmk
          simp [removeProp, lookupProp, hmn]
        · simp [removeProp, lookupProp, hmn, hmk,
            lookupProp_removeProp_ne k n hne rest]

/-- If a property name is declared in both lists and merging the two
subschemas fails, merging the property lists fails. -/
theorem mergeProps_conflict (base : List PathSeg) (k : String) (c1 c2 : SchemaNode) :
    ∀ (p1 p2 : SProps), lookupProp k p1 = some c1 → lookupProp k p2 = some c2 →
      (∃ q, mergeNode (base ++ [.prop k]) c1 c2 = .error q) →
      ∃ q, mergeProps base p1 p2 = .error q
  | .nil, p2, h1, _, _ => by simp [lookupProp] at h1
  | .cons n c rest, p2, h1, h2, hm => by
      by_cases hnk : n = k
      · subst hnk
        simp [lookupProp] at h1
        subst h1
        obtain ⟨q, hq⟩ := hm
        exact ⟨q, by simp [mergeProps, h2, hq]⟩
      · simp only [lookupProp, if_neg hnk] at h1
        cases hl : lookupProp n p2 with
        | some cn =>
          cases hmn : mergeNode (base ++ [.prop n]) c cn with
          | error e => exact ⟨e, by simp [mergeProps, hl, hmn]⟩
          | ok m =>
            have h2' : lookupProp k (removeProp n p2) = some c2 := by
              rw [lookupProp_removeProp_ne k n (fun h => hnk h.symm) p2]
              exact h2
            obtain ⟨q, hq⟩ :=
              mergeProps_conflict base k c1 c2 rest (removeProp n p2) h1 h2' hm
            exact ⟨q, by simp [mergeProps, hl, hmn, hq]⟩
        | none =>
          obtain ⟨q, hq⟩ := mergeProps_conflict base k c1 c2 rest p2 h1 h2 hm
          exact ⟨q, by simp [mergeProps, hl, hq]⟩

/-- Two fragments that declare the conflicting visibility pair at the
same structural path cannot merge: `mergeNode` fails, whatever base path
it is invoked at. -/
theorem mergeNode_conflict :
    ∀ (p base : List PathSeg) (s1 s2 : SchemaNode) (v1 v2 : Visibility),
      declaredVisAt s1 p = some v1 → declaredVisAt s2 p = some v2 →
      isConflict v1 v2 → ∃ q, mergeNode base s1 s2 = .error q
  | [], base, s1, s2, v1, v2, h1, h2, hc => by
      simp only [declaredVisAt] at h1 h2
      cases s1 <;> cases s2 <;>
        simp only [SchemaNode.vis] at h1 h2 <;>
        subst h1 <;> subst h2 <;>
        exact ⟨base, by simp [mergeNode, SchemaNode.vis, mergeVis_conflict base v1 v2 hc]⟩
  | .prop k :: rest, base, s1, s2, v1, v2, h1, h2, hc => by
      cases s1 with
      | obj p1 u1 d1 =>
        cases s2 with
        | obj p2 u2 d2 =>
          simp only [declaredVisAt] at h1 h2
          cases hl1 : lookupProp k p1 with
          | none => rw [hl1] at h1; simp at h1
          | some c1 =>
            rw [hl1] at h1
            cases hl2 : lookupProp k p2 with
            | none => rw [hl2] at h2; simp at h2
            | some c2 =>
              rw [hl2] at h2
              have ih := mergeNode_conflict rest (base ++ [.prop k]) c1 c2 v1 v2 h1 h2 hc
              cases hmv : mergeVis base u1 u2 with
              | error q => exact ⟨q, by simp [mergeNode, hmv]⟩
              | ok v =>
                obtain ⟨q, hq⟩ := mergeProps_conflict base k c1 c2 p1 p2 hl1 hl2 ih
                exact ⟨q, by simp [mergeNode, hmv, hq]⟩
        | arr i2 u2 d2 => simp [declaredVisAt] at h2
        | scalar k2 u2 d2 => simp [declaredVisAt] at h2
      | arr i1 u1 d1 => simp [declaredVisAt] at h1
      | scalar k1 u1 d1 => simp [declaredVisAt] at h1
  | .items :: rest, base, s1, s2, v1, v2, h1, h2, hc => by
      cases s1 with
      | arr i1 u1 d1 =>
        cases s2 with
        | arr i2 u2 d2 =>
          simp only [declaredVisAt] at h1 h2
          have ih := mergeNode_conflict rest (base ++ [.items]) i1 i2 v1 v2 h1 h2 hc
          cases hmv : mergeVis base u1 u2 with
          | error q => exact ⟨q, by simp [mergeNode, hmv]⟩
          | ok v =>
            obtain ⟨q, hq⟩ := ih
            exact ⟨q, by simp [mergeNode, hmv, hq]⟩
        | obj p2 u2 d2 => simp [declaredVisAt] at h2
        | scalar k2 u2 d2 => simp [declaredVisAt] at h2
      | obj p1 u1 d1 => simp [declaredVisAt] at h1
      | scalar k1 u1 d1 => simp [declaredVisAt] at h1

/-- C1 (amended): if one fragment declares `frontend` and the other
`secret` at the same structural path, compilation of the pair fails with
the conflict error, whose message (by definition of `conflictMsg`)
contains both visibility literals and the structural path. Differing
pairs involving `backend` do not fail (see the counterexample). -/
theorem c1_frontend_secret_conflict_fails (n1 n2 : String) (s1 s2 : SchemaNode)
    (p : List PathSeg) (v1 v2 : Visibility)
    (h1 : declaredVisAt s1 p = some v1) (h2 : declaredVisAt s2 p = some v2)
    (hc : isConflict v1 v2) :
    ∃ q, compileConfigSchemas [⟨n1, s1⟩, ⟨n2, s2⟩] = .error (conflictMsg q) := by
  obtain ⟨q, hq⟩ := mergeNode_conflict p [] s1 s2 v1 v2 h1 h2 hc
  exact ⟨q, by simp [compileConfigSchemas, mergeAll, mergeInto, hq]⟩

/-- C1 witness: the conflict test's concrete fragments (`a` declared
`frontend` by one fragment and `secret` by the other) fail to compile
with a conflict message. -/
theorem c1_frontend_secret_conflict_fails_witness :
    ∃ q, compileConfigSchemas [fragConf1, fragConf2] = .error (conflictMsg q) :=
  c1_frontend_secret_conflict_fails "a1" "a2" fragConf1.value fragConf2.value
    [.prop "a"] .frontend .secret rfl rfl (by decide)

/-- C1 counterexample: the claim asserts that any two distinct
visibility values at the same path abort compilation, but the
visibility-discovery fragments declare `backend` and `secret` at
`properties/b` and compile successfully (the pair resolves to
`secret`). -/
theorem c1_distinct_pair_compiles_counterexample :
    declaredVisAt fragVis1.value [.prop "b"] = some .backend ∧
    declaredVisAt fragVis2.value [.prop "b"] = some .secret ∧
    Visibility.backend ≠ Visibility.secret ∧
    compileConfigSchemas [fragVis1, fragVis2] = .ok ⟨mergedVis, schemaVisMapVis⟩ :=
  ⟨rfl, rfl, by decide, rfl⟩

/-- Disjoint property lists merge to their concatenation: every property
of either fragment is carried through unchanged. -/
theorem mergeProps_disjoint (base : List PathSeg) :
    ∀ (p1 p2 : SProps), propsDisjoint p1 p2 = true →
      mergeProps base p1 p2 = .ok (appendProps p1 p2)
  | .nil, p2, _ => rfl
  | .cons n c rest, p2, h => by
      simp only [propsDisjoint, Bool.and_eq_true, Option.isNone_iff_eq_none] at h
      obtain ⟨hn, hrest⟩ := h
      simp [mergeProps, hn, mergeProps_disjoint base rest p2 hrest, appendProps]

/-- Lookup in a concatenation of property lists tries the first list
first. -/
theorem lookupProp_append (k : String) :
    ∀ (p1 p2 : SProps), lookupProp k (appendProps p1 p2) =
      match lookupProp k p1 with
      | some c => some c
      | none => lookupProp k p2
  | .nil, p2 => rfl
  | .cons n c rest, p2 => by
      by_cases hnk : n = k
      · simp [appendProps, lookupProp, hnk]
      · simp [appendProps, lookupProp, hnk, lookupProp_append k rest p2]

/-- Validating an object's fields against the concatenation of two
property lists validates every field by the list that declares it, the
first list taking precedence: the per-fragment error decomposition. -/
theorem validateFields_perFragment (sp ip : String) (p1 p2 : SProps) :
    ∀ fields : JFields,
      (validateFields sp ip (appendProps p1 p2) fields).2 =
        perFragmentErrors sp ip p1 p2 fields
  | .nil => rfl
  | .cons k v rest => by
      have ih := validateFields_perFragment sp ip p1 p2 rest
      rw [show (validateFields sp ip (appendProps p1 p2) (.cons k v rest)) =
        (match lookupProp k (appendProps p1 p2) with
         | some child =>
           match validateValue (sp ++ "/properties/" ++ k) (ip ++ "/" ++ k) child v with
           | (v2, e1) =>
             match validateFields sp ip (appendProps p1 p2) rest with
             | (r2, e2) => (.cons k v2 r2, e1 ++ e2)
         | none =>
           match validateFields sp ip (appendProps p1 p2) rest with
           | (r2, e2) => (.cons k v r2, e2)) from rfl]
      rw [lookupProp_append k p1 p2]
      cases h1 : lookupProp k p1 with
      | some c => simp [perFragmentErrors, h1, ih]
      | none =>
        cases h2 : lookupProp k p2 with
        | some c => simp [perFragmentErrors, h1, h2, ih]
        | none => simp [perFragmentErrors, h1, h2, ih]

/-- C2: for fragments with disjoint property sets under a shared object
root, compilation succeeds, the merged root carries both property lists
unchanged, and the errors of validating any instance are exactly the
per-property errors of each field validated by the fragment that
declares it (fields declared by neither produce nothing). In particular
an instance whose properties satisfy the declaring fragments yields no
errors, and a property violating its declaring fragment yields exactly
that fragment's type error. -/
theorem c2_disjoint_merge_preserves_fragments (n1 n2 ctx : String)
    (p1 p2 : SProps) (fields : JFields) (hdisj : propsDisjoint p1 p2 = true) :
    ∃ m : Compiled,
      compileConfigSchemas [⟨n1, .obj p1 none none⟩, ⟨n2, .obj p2 none none⟩] = .ok m ∧
      m.merged = .obj (appendProps p1 p2) none none ∧
      (validateBatch m [⟨.obj fields, ctx⟩]).errors =
        errsOpt (perFragmentErrors "#" "" p1 p2 fields) := by
  have hm := mergeProps_disjoint [] p1 p2 hdisj
  refine ⟨⟨.obj (appendProps p1 p2) none none,
    schemaVisOf "" (.obj (appendProps p1 p2) none none)⟩, ?_, rfl, ?_⟩
  · simp [compileConfigSchemas, mergeAll, mergeInto, mergeNode, mergeVis, hm, mergeDep]
  · have hv : (validateValue "#" "" (.obj (appendProps p1 p2) none none) (.obj fields)).2 =
        (validateFields "#" "" (appendProps p1 p2) fields).2 := by
      cases hfe : validateFields "#" "" (appendProps p1 p2) fields with
      | mk fs errs => simp [validateValue, hfe]
    simp [validateBatch, batchErrors, validateOne, hv,
      validateFields_perFragment "#" "" p1 p2 fields]

/-- C2 witness: the merge-schemas test's fragments (`a` a string, `b` a
number) are disjoint; validating an instance whose `a` satisfies its
fragment and whose `b` violates its fragment decomposes into exactly
the per-fragment errors. -/
theorem c2_disjoint_merge_preserves_fragments_witness :
    propsDisjoint (.cons "a" (.scalar .string none none) .nil)
      (.cons "b" (.scalar .number none none) .nil) = true ∧
    ∃ m : Compiled,
      compileConfigSchemas [⟨"a", .obj (.cons "a" (.scalar .string none none) .nil) none none⟩,
        ⟨"b", .obj (.cons "b" (.scalar .number none none) .nil) none none⟩] = .ok m ∧
      m.merged = .obj (appendProps (.cons "a" (.scalar .string none none) .nil)
        (.cons "b" (.scalar .number none none) .nil)) none none ∧
      (validateBatch m [⟨.obj (.cons "a" (.str "ok") (.cons "b" (.arr .nil) .nil)), "test"⟩]).errors =
        errsOpt (perFragmentErrors "#" "" (.cons "a" (.scalar .string none none) .nil)
          (.cons "b" (.scalar .number none none) .nil)
          (.cons "a" (.str "ok") (.cons "b" (.arr .nil) .nil))) :=
  ⟨rfl, c2_disjoint_merge_preserves_fragments "a" "b" "test"
    (.cons "a" (.scalar .string none none) .nil)
    (.cons "b" (.scalar .number none none) .nil)
    (.cons "a" (.str "ok") (.cons "b" (.arr .nil) .nil)) rfl⟩

/-- C3: a string validated against the number-typed field `b` of the
coercion-test schema either parses as a numeral - then the field is
mutated to the parsed number and no error is recorded - or it does not,
and exactly one `type` error naming `number` is recorded while the
original string is left in place. -/
theorem c3_string_number_coercion (s : String) :
    (∀ n : Int, parseNumOpt s = some n →
      validateOne mergedABC ⟨oneField "b" (.str s), "test"⟩ = (oneField "b" (.num n), []) ∧
      (validateBatch compiledABC [⟨oneField "b" (.str s), "test"⟩]).errors = none) ∧
    (parseNumOpt s = none →
      validateOne mergedABC ⟨oneField "b" (.str s), "test"⟩ =
        (oneField "b" (.str s), [typeErr "#/properties/b" "/b" "number"]) ∧
      (validateBatch compiledABC [⟨oneField "b" (.str s), "test"⟩]).errors =
        some [typeErr "#/properties/b" "/b" "number"]) := by
  constructor
  · intro n h
    have h1 : validateOne mergedABC ⟨oneField "b" (.str s), "test"⟩ =
        (oneField "b" (.num n), []) := by
      simp [validateOne, mergedABC, oneField, validateValue, validateFields,
        lookupProp, matchesKind, coerce, h]
    exact ⟨h1, by simp [validateBatch, batchErrors, h1, errsOpt, compiledABC]⟩
  · intro h
    have h1 : validateOne mergedABC ⟨oneField "b" (.str s), "test"⟩ =
        (oneField "b" (.str s), [typeErr "#/properties/b" "/b" "number"]) := by
      simp [validateOne, mergedABC, oneField, validateValue, validateFields,
        lookupProp, matchesKind, coerce, h, typeErr, kindName]
    exact ⟨h1, by simp [validateBatch, batchErrors, h1, errsOpt, compiledABC]⟩

/-- C3 witness: the numeral string is coerced and recorded error free,
the non-numeral string yields exactly one number-type error and is left
unchanged, at the test suite's concrete inputs. -/
theorem c3_string_number_coercion_witness :
    (validateOne mergedABC ⟨oneField "b" (.str "123"), "test"⟩ =
       (oneField "b" (.num 123), []) ∧
     (validateBatch compiledABC [⟨oneField "b" (.str "123"), "test"⟩]).errors = none) ∧
    (validateOne mergedABC ⟨oneField "b" (.str "not a number"), "test"⟩ =
       (oneField "b" (.str "not a number"), [typeErr "#/properties/b" "/b" "number"]) ∧
     (validateBatch compiledABC [⟨oneField "b" (.str "not a number"), "test"⟩]).errors =
       some [typeErr "#/properties/b" "/b" "number"]) :=
  ⟨(c3_string_number_coercion "123").1 123 rfl,
   (c3_string_number_coercion "not a number").2 rfl⟩

/-- C5 counterexample: the claim asserts every number coerces against a
boolean-typed field, but validating the number 3 against the
boolean-typed field `c` records a `type` error naming `boolean`, exactly
as the invalid-numbers test expects. -/
theorem c5_nonzero_number_counterexample :
    validateBatch compiledABC [⟨oneField "c" (.num 3), "test"⟩] =
      { errors := some [typeErr "#/properties/c" "/c" "boolean"]
        visibilityByDataPath := []
        visibilityBySchemaPath := []
        deprecationByDataPath := [] } := by
  decide

/-- C5 (amended): against the boolean-typed field `c`, the number 0
coerces to `false` and the number 1 coerces to `true`, each without
error; any other number is not coercible and yields exactly one `type`
error naming `boolean`, the value staying unchanged. -/
theorem c5_number_boolean_coercion (n : Int) :
    (n = 0 →
      validateOne mergedABC ⟨oneField "c" (.num n), "test"⟩ =
        (oneField "c" (.bool false), [])) ∧
    (n = 1 →
      validateOne mergedABC ⟨oneField "c" (.num n), "test"⟩ =
        (oneField "c" (.bool true), [])) ∧
    (n ≠ 0 → n ≠ 1 →
      validateOne mergedABC ⟨oneField "c" (.num n), "test"⟩ =
        (oneField "c" (.num n), [typeErr "#/properties/c" "/c" "boolean"]) ∧
      (validateBatch compiledABC [⟨oneField "c" (.num n), "test"⟩]).errors =
        some [typeErr "#/properties/c" "/c" "boolean"]) := by
  refine ⟨?_, ?_, ?_⟩
  · intro h
    subst h
    decide
  · intro h
    subst h
    decide
  · intro h0 h1
    have hcoe : coerce (.num n) .boolean = none := by
      simp [coerce, h0, h1]
    have hm : validateOne mergedABC ⟨oneField "c" (.num n), "test"⟩ =
        (oneField "c" (.num n), [typeErr "#/properties/c" "/c" "boolean"]) := by
      simp [validateOne, mergedABC, oneField, validateValue, validateFields,
        lookupProp, matchesKind, hcoe, typeErr, kindName]
    exact ⟨hm, by simp [validateBatch, batchErrors, hm, errsOpt, compiledABC]⟩

/-- C5 witness: the amended coercion rule evaluated at the numbers 0, 1
and 3 against the boolean-typed field. -/
theorem c5_number_boolean_coercion_witness :
    validateOne mergedABC ⟨oneField "c" (.num 0), "test"⟩ =
      (oneField "c" (.bool false), []) ∧
    validateOne mergedABC ⟨oneField "c" (.num 1), "test"⟩ =
      (oneField "c" (.bool true), []) ∧
    validateOne mergedABC ⟨oneField "c" (.num 3), "test"⟩ =
      (oneField "c" (.num 3), [typeErr "#/properties/c" "/c" "boolean"]) :=
  ⟨(c5_number_boolean_coercion 0).1 rfl,
   (c5_number_boolean_coercion 1).2.1 rfl,
   ((c5_number_boolean_coercion 3).2.2 (by decide) (by decide)).1⟩

/-- C6: the boolean coercion round trips of the test suite: the string
true coerces to the boolean true, the boolean true against the
string-typed field coerces to the string true, the boolean false against
the number-typed field coerces to 0, the number 0 against the
boolean-typed field coerces to false, and the number 3 against the
boolean-typed field is not coercible and yields a `type` error. -/
theorem c6_boolean_coercion_round_trip :
    validateOne mergedABC ⟨oneField "c" (.str "true"), "test"⟩ =
      (oneField "c" (.bool true), []) ∧
    validateOne mergedABC ⟨oneField "a" (.bool true), "test"⟩ =
      (oneField "a" (.str "true"), []) ∧
    validateOne mergedABC ⟨oneField "b" (.bool false), "test"⟩ =
      (oneField "b" (.num 0), []) ∧
    validateOne mergedABC ⟨oneField "c" (.num 0), "test"⟩ =
      (oneField "c" (.bool false), []) ∧
    validateOne mergedABC ⟨oneField "c" (.num 3), "test"⟩ =
      (oneField "c" (.num 3), [typeErr "#/properties/c" "/c" "boolean"]) ∧
    (validateBatch compiledABC [⟨oneField "c" (.num 3), "test"⟩]).errors =
      some [typeErr "#/properties/c" "/c" "boolean"] := by
  decide

/-- C4 counterexample: the claim asserts `visibilityBySchemaPath`
contains exactly the declared paths, but `c`, declared `backend` by the
second visibility-discovery fragment, has no entry in either map (the
`backend` default is never recorded), exactly as the test expects. -/
theorem c4_backend_declared_unmapped_counterexample :
    declaredVisAt fragVis2.value [.prop "c"] = some .backend ∧
    compileConfigSchemas [fragVis1, fragVis2] = .ok ⟨mergedVis, schemaVisMapVis⟩ ∧
    lookupKey schemaVisMapVis "/properties/c" = none ∧
    lookupKey schemaVisMapVis "properties/c" = none ∧
    lookupKey (validateBatch ⟨mergedVis, schemaVisMapVis⟩
      [⟨dataVis, "test"⟩]).visibilityByDataPath "/c" = none :=
  ⟨rfl, rfl, rfl, rfl, rfl⟩

/-- C4 (amended): for the nested object, array and items schema of the
visibility-discovery test, `visibilityBySchemaPath` contains exactly the
declared paths whose merged visibility is not the `backend` default,
with array indices collapsed onto the single items entry, and
`visibilityByDataPath` contains one entry per concrete non-backend
occurrence in the instance, one per array index. -/
theorem c4_visibility_propagation :
    compileConfigSchemas [fragVis1, fragVis2] = .ok ⟨mergedVis, schemaVisMapVis⟩ ∧
    validateBatch ⟨mergedVis, schemaVisMapVis⟩ [⟨dataVis, "test"⟩] =
      { errors := none
        visibilityByDataPath := dataVisMapVis
        visibilityBySchemaPath := schemaVisMapVis
        deprecationByDataPath := [] } :=
  ⟨rfl, by decide⟩

/-- A batch whose every request validates cleanly accumulates no
errors. -/
theorem batchErrors_nil (m : SchemaNode) :
    ∀ batch : List ValidationRequest,
      (∀ r ∈ batch, (validateOne m r).2 = []) → batchErrors m batch = []
  | [], _ => rfl
  | r :: rest, h => by
      simp [batchErrors, h r (by simp),
        batchErrors_nil m rest (fun x hx => h x (by simp [hx]))]

/-- C7 counterexample: the claim asserts the `errors` field is the empty
sequence when every request validates, but on the all-valid batch below
the result carries no `errors` field at all (it is absent, not the empty
sequence), exactly as the success-path tests expect. -/
theorem c7_success_errors_counterexample :
    (∀ r ∈ [ValidationRequest.mk (oneField "a" (.str "x")) "one",
             ValidationRequest.mk (oneField "b" (.num 2)) "two"],
      (validateOne compiledABC.merged r).2 = []) ∧
    (validateBatch compiledABC [⟨oneField "a" (.str "x"), "one"⟩,
      ⟨oneField "b" (.num 2), "two"⟩]).errors ≠ some [] ∧
    (validateBatch compiledABC [⟨oneField "a" (.str "x"), "one"⟩,
      ⟨oneField "b" (.num 2), "two"⟩]).errors = none := by
  decide

/-- C7 (amended): when every request of a batch validates successfully,
the returned result's `errors` field is absent (rather than the empty
sequence). -/
theorem c7_success_errors_absent (c : Compiled) (batch : List ValidationRequest)
    (h : ∀ r ∈ batch, (validateOne c.merged r).2 = []) :
    (validateBatch c batch).errors = none := by
  simp [validateBatch, batchErrors_nil c.merged batch h, errsOpt]

/-- C7 witness: the amended statement at a concrete all-valid batch. -/
theorem c7_success_errors_absent_witness :
    (validateBatch compiledABC
      [⟨oneField "a" (.str "already a string"), "test"⟩]).errors = none :=
  c7_success_errors_absent compiledABC
    [⟨oneField "a" (.str "already a string"), "test"⟩] (by decide)

/-- The recursive batch error accumulator equals the map-and-flatten
form: per-request error lists concatenated in batch order. -/
theorem batchErrors_eq_joined (m : SchemaNode) :
    ∀ batch : List ValidationRequest, batchErrors m batch = batchJoined m batch
  | [] => rfl
  | r :: rest => by
      simp [batchErrors, batchJoined, batchErrors_eq_joined m rest]

/-- C9: the validation function is total (structural mismatches are
accumulated, never thrown) and the reported errors are exactly the
concatenation, in batch order, of each request's validation errors in
the order discovered within that request, the whole wrapped as a present
field exactly when nonempty. -/
theorem c9_errors_concatenated_in_batch_order (c : Compiled)
    (batch : List ValidationRequest) :
    (validateBatch c batch).errors = errsOpt (batchJoined c.merged batch) := by
  simp [validateBatch, batchErrors_eq_joined]

/-- Validating fields with an undeclared name removed validates the
remaining fields identically: the undeclared field's removal commutes
with validation, and it contributes no errors. -/
theorem validateFields_removeField (sp ip : String) (props : SProps) (k : String)
    (hk : lookupProp k props = none) :
    ∀ fields : JFields,
      validateFields sp ip props (removeField k fields) =
        (removeField k (validateFields sp ip props fields).1,
         (validateFields sp ip props fields).2)
  | .nil => rfl
  | .cons n v rest => by
      cases hR : validateFields sp ip props rest with
      | mk f e =>
        have ih := validateFields_removeField sp ip props k hk rest
        rw [hR] at ih
        by_cases hnk : n = k
        · subst hnk
          simp [removeField, validateFields, hk, hR, ih]
        · cases hl : lookupProp n props with
          | some child =>
            cases hv : validateValue (sp ++ "/properties/" ++ n) (ip ++ "/" ++ n) child v with
            | mk v2 e1 =>
              simp [removeField, hnk, validateFields, hl, hv, hR, ih]
          | none =>
            simp [removeField, hnk, validateFields, hl, hR, ih]

/-- Collecting the data-path maps over fields with an undeclared name
removed collects exactly the same entries. -/
theorem collectMapsFields_removeField (path : String) (props : SProps) (k : String)
    (hk : lookupProp k props = none) :
    ∀ fields : JFields,
      collectMapsFields path props (removeField k fields) =
        collectMapsFields path props fields
  | .nil => rfl
  | .cons n v rest => by
      have ih := collectMapsFields_removeField path props k hk rest
      by_cases hnk : n = k
      · subst hnk
        simp [removeField, collectMapsFields, hk, ih]
      · cases hl : lookupProp n props with
        | some child => simp [removeField, hnk, collectMapsFields, hl, ih]
        | none => simp [removeField, hnk, collectMapsFields, hl, ih]

/-- C10: a data property not declared in the merged schema contributes
nothing: the full validation result (errors and every data-path map) is
identical with the undeclared property removed from the instance, so it
produces no error and no visibility or deprecation entry at its path or
beneath it. -/
theorem c10_undeclared_property_invisible (props : SProps) (ov : Option Visibility)
    (od : Option String) (sv : List (String × Visibility)) (k ctx : String)
    (fields : JFields) (hk : lookupProp k props = none) :
    validateBatch ⟨.obj props ov od, sv⟩ [⟨.obj (removeField k fields), ctx⟩] =
      validateBatch ⟨.obj props ov od, sv⟩ [⟨.obj fields, ctx⟩] := by
  cases hR : validateFields "#" "" props fields with
  | mk f e =>
    have hrem := validateFields_removeField "#" "" props k hk fields
    rw [hR] at hrem
    have h1 : validateOne (.obj props ov od) ⟨.obj fields, ctx⟩ = (.obj f, e) := by
      simp [validateOne, validateValue, hR]
    have h2 : validateOne (.obj props ov od) ⟨.obj (removeField k fields), ctx⟩ =
        (.obj (removeField k f), e) := by
      simp [validateOne, validateValue, hrem]
    have hc : collectMaps "" (.obj props ov od) (.obj (removeField k f)) =
        collectMaps "" (.obj props ov od) (.obj f) := by
      have hcr := collectMapsFields_removeField "" props k hk f
      cases hcf : collectMapsFields "" props f with
      | mk vs ds =>
        rw [hcf] at hcr
        simp [collectMaps, hcr, hcf]
    simp [validateBatch, batchErrors, batchVisEntries, batchDepEntries, h1, h2, hc]

/-- C10 witness: in the deprecation-discovery scenario the undeclared
property `d` changes nothing about the validation result. -/
theorem c10_undeclared_property_invisible_witness :
    lookupProp "d" depProps = none ∧
    validateBatch ⟨.obj depProps none none, []⟩
        [⟨.obj (removeField "d" fieldsDep), "test"⟩] =
      validateBatch ⟨.obj depProps none none, []⟩ [⟨.obj fieldsDep, "test"⟩] :=
  ⟨rfl, c10_undeclared_property_invisible depProps none none [] "d" "test" fieldsDep rfl⟩

/-- C8 counterexample: the claim asserts schema-path map keys have no
leading slash, but the compiled visibility-discovery schema maps
`/properties/a` (with a leading slash), and has no entry under the
claimed `properties/a` form. -/
theorem c8_schema_path_leading_slash_counterexample :
    compileConfigSchemas [fragVis1, fragVis2] = .ok ⟨mergedVis, schemaVisMapVis⟩ ∧
    lookupKey schemaVisMapVis "properties/a" = none ∧
    lookupKey schemaVisMapVis "/properties/a" = some .frontend :=
  ⟨rfl, rfl, rfl⟩

/-- C8 (amended): schema-path map keys are slash-led segment paths
rooted at `properties` (`/properties/a`, `/properties/d/items`), data
path keys are the slash-led per-segment form (`/a`, `/d/0`), and the
slash-free `segment/segment` form appears only in the conflict error
message path (`properties/a/visibility`). -/
theorem c8_path_key_formats :
    compileConfigSchemas [fragVis1, fragVis2] = .ok ⟨mergedVis, schemaVisMapVis⟩ ∧
    schemaVisMapVis =
      [("/properties/a", .frontend), ("/properties/b", .secret),
       ("/properties/d", .secret), ("/properties/d/items", .frontend)] ∧
    (validateBatch ⟨mergedVis, schemaVisMapVis⟩
        [⟨dataVis, "test"⟩]).visibilityByDataPath =
      [("/a", .frontend), ("/b", .secret), ("/d", .secret), ("/d/0", .frontend)] ∧
    conflictMsg [.prop "a"] =
      "Config schema visibility is both 'frontend' and 'secret' for properties/a/visibility" :=
  ⟨rfl, rfl, by decide, by decide⟩
